import Mathlib

/-
Verification of the Microsoft Update Connectivity Checker
(src/Microsoft-Connectivity-Checker.py) against its specification.

The network is modelled as an oracle: DNS resolution
(socket.gethostbyname_ex) either returns an address list or fails with an
error message, and a TCP connection attempt (socket.create_connection)
either succeeds or fails with an error message.  The Python loops of
check_domain and run_checks are embedded as folds over explicit state
records that carry the checker counters, the printed lines (abstracted as
an inductive type of line shapes) and a trace of the attempted probes and
resolutions.
-/

namespace MSConnCheck

/-- Model of the network environment: DNS resolution returns the address
list of a domain or an error message (socket.gaierror), and a TCP connect
to an (ip, port) pair succeeds or fails with an error message. -/
structure Network where
  resolve : String → Except String (List String)
  connect : String → Nat → Except String Unit

/-- The fixed probe ports, the tuple `(80, 443)` in the source. -/
def PORTS : List Nat := [80, 443]

/-- DEFAULT_DOMAINS from the source. -/
def DEFAULT_DOMAINS : List String :=
  ["windowsupdate.microsoft.com",
   "update.microsoft.com",
   "dl.delivery.mp.microsoft.com",
   "sls.update.microsoft.com",
   "fe2.update.microsoft.com",
   "download.windowsupdate.com"]

/-- The mutable fields of a ConnectivityChecker instance. -/
structure Checker where
  timeout : Int
  verbose : Bool
  quiet : Bool
  total_domains : Nat
  failed_domains : Nat
  dns_failures : Nat
deriving DecidableEq, Repr

/-- ConnectivityChecker.__init__: counters start at zero. -/
def mkChecker (timeout : Int) (verbose quiet : Bool) : Checker :=
  ⟨timeout, verbose, quiet, 0, 0, 0⟩

/-- One attempted TCP connection: target address, port, and whether the
connect succeeded. -/
structure ProbeRecord where
  ip : String
  port : Nat
  success : Bool
deriving DecidableEq, Repr

/-- A printed line, abstracted to its shape and payload. -/
inductive OutputLine
  | headerLine
  | dnsFail (domain err : String)
  | verboseConnected (ip : String) (port : Nat)
  | verboseFailed (ip : String) (port : Nat) (err : String)
  | result (hasFailedPort : Bool) (domain : String) (portResults : List String)
  | summary (success total : Nat)
  | issues (failed : Nat)
  | dnsSummary (dns : Nat)
  | errTimeout
  | errConflict
  | interruptedMsg
  | unexpectedErr (msg : String)
deriving DecidableEq, Repr

/-- The string appended to ip_ports on a successful connect. -/
def checkMark (port : Nat) : String := "✓" ++ toString port

/-- The string appended to ip_ports on a failed connect. -/
def crossMark (port : Nat) : String := "✗" ++ toString port

/-- The per-ip summary string, as built by the source. -/
def ipSummaryStr (ip : String) (ip_ports : List String) : String :=
  ip ++ ":[" ++ String.intercalate "," ip_ports ++ "]"

/-- State of the inner `for port in (80, 443)` loop of check_domain. -/
structure PortLoop where
  ip_ports : List String
  hasFailed : Bool
  out : List OutputLine
  probes : List ProbeRecord
deriving Repr

/-- One iteration of the inner port loop: attempt the connect, record the
mark, the failure flag, the verbose line and the probe. -/
def probe_port (net : Network) (c : Checker) (ip : String) (s : PortLoop)
    (port : Nat) : PortLoop :=
  match net.connect ip port with
  | .ok _ =>
      { ip_ports := s.ip_ports ++ [checkMark port],
        hasFailed := s.hasFailed,
        out := s.out ++ (if c.verbose then [.verboseConnected ip port] else []),
        probes := s.probes ++ [⟨ip, port, true⟩] }
  | .error e =>
      { ip_ports := s.ip_ports ++ [crossMark port],
        hasFailed := true,
        out := s.out ++ (if c.verbose then [.verboseFailed ip port e] else []),
        probes := s.probes ++ [⟨ip, port, false⟩] }

/-- State of the outer `for ip in ip_list` loop of check_domain. -/
structure IpLoop where
  port_results : List String
  hasFailed : Bool
  out : List OutputLine
  probes : List ProbeRecord
deriving Repr

/-- One iteration of the outer address loop: run the port loop with a fresh
ip_ports list, then append the per-ip summary string. -/
def probe_ip (net : Network) (c : Checker) (s : IpLoop) (ip : String) : IpLoop :=
  let t := PORTS.foldl (probe_port net c ip)
    { ip_ports := [], hasFailed := s.hasFailed, out := s.out, probes := s.probes }
  { port_results := s.port_results ++ [ipSummaryStr ip t.ip_ports],
    hasFailed := t.hasFailed,
    out := t.out,
    probes := t.probes }

/-- Result of ConnectivityChecker.check_domain: its boolean return value,
the updated checker, the lines printed, the probes attempted, and the
domains on which DNS resolution was attempted. -/
structure CheckResult where
  ret : Bool
  checker : Checker
  out : List OutputLine
  probes : List ProbeRecord
  resolutions : List String
deriving Repr

/-- ConnectivityChecker.check_domain. -/
def check_domain (net : Network) (c0 : Checker) (domain : String) : CheckResult :=
  let c1 := { c0 with total_domains := c0.total_domains + 1 }
  match net.resolve domain with
  | .error e =>
      let c2 := { c1 with dns_failures := c1.dns_failures + 1,
                          failed_domains := c1.failed_domains + 1 }
      { ret := false, checker := c2,
        out := if c2.quiet then [] else [.dnsFail domain e],
        probes := [], resolutions := [domain] }
  | .ok ip_list =>
      let s := ip_list.foldl (probe_ip net c1)
        { port_results := [], hasFailed := false, out := [], probes := [] }
      let c2 := if s.hasFailed
        then { c1 with failed_domains := c1.failed_domains + 1 } else c1
      let result_line := OutputLine.result s.hasFailed domain s.port_results
      let printed := if c2.quiet
        then (if s.hasFailed then [result_line] else [])
        else [result_line]
      { ret := !s.hasFailed, checker := c2,
        out := s.out ++ printed, probes := s.probes, resolutions := [domain] }

/-- State threaded through the `for domain in domains` loop of run_checks. -/
structure RunState where
  checker : Checker
  success_count : Nat
  out : List OutputLine
  probes : List ProbeRecord
  resolutions : List String
deriving Repr

/-- One iteration of the run_checks loop. -/
def run_step (net : Network) (s : RunState) (domain : String) : RunState :=
  let r := check_domain net s.checker domain
  { checker := r.checker,
    success_count := s.success_count + (if r.ret then 1 else 0),
    out := s.out ++ r.out,
    probes := s.probes ++ r.probes,
    resolutions := s.resolutions ++ r.resolutions }

/-- The run state at the top of run_checks (the header is printed unless
quiet). -/
def initRun (c : Checker) : RunState :=
  { checker := c,
    success_count := 0,
    out := if c.quiet then [] else [.headerLine],
    probes := [], resolutions := [] }

/-- ConnectivityChecker.run_checks: fold over the domains, print the
summary unless quiet, and return the exit code with the final state. -/
def run_checks (net : Network) (c : Checker) (domains : List String) :
    Nat × RunState :=
  let s := domains.foldl (run_step net) (initRun c)
  let fc := s.checker
  let tail : List OutputLine :=
    if fc.quiet then [] else
      [.summary s.success_count fc.total_domains]
      ++ (if 0 < fc.failed_domains then [.issues fc.failed_domains] else [])
      ++ (if 0 < fc.dns_failures then [.dnsSummary fc.dns_failures] else [])
  let code := if fc.dns_failures = fc.total_domains then 2
              else if 0 < fc.failed_domains then 1
              else 0
  (code, { s with out := s.out ++ tail })

/-- The exit code of a run. -/
def run_exit (net : Network) (c : Checker) (domains : List String) : Nat :=
  (run_checks net c domains).1

/-- The checker counters after a run. -/
def run_final (net : Network) (c : Checker) (domains : List String) : Checker :=
  (run_checks net c domains).2.checker

/-- Parsed command-line arguments. -/
structure Args where
  domains : Option (List String)
  timeout : Int
  verbose : Bool
  quiet : Bool

/-- An exception escaping run_checks: KeyboardInterrupt or any other
exception with its message. -/
inductive RunExc
  | keyboardInterrupt
  | other (msg : String)

/-- Result of main: the code given to sys.exit plus the observable trace. -/
structure MainResult where
  code : Nat
  out : List OutputLine
  probes : List ProbeRecord
  resolutions : List String

/-- main: build the domain list, validate the arguments, then run the
checks inside try/except.  `exc` models whether the run raises; when it
does, the RunState paired with it is the partial state accumulated at the
moment the exception escaped. -/
def main_run (net : Network) (args : Args) (exc : Option (RunExc × RunState)) :
    MainResult :=
  let domains := DEFAULT_DOMAINS ++ args.domains.getD []
  if args.timeout ≤ 0 then
    { code := 2, out := [.errTimeout], probes := [], resolutions := [] }
  else if args.verbose && args.quiet then
    { code := 2, out := [.errConflict], probes := [], resolutions := [] }
  else
    match exc with
    | some (.keyboardInterrupt, s) =>
        { code := 1, out := s.out ++ [.interruptedMsg],
          probes := s.probes, resolutions := s.resolutions }
    | some (.other m, s) =>
        { code := 2, out := s.out ++ [.unexpectedErr m],
          probes := s.probes, resolutions := s.resolutions }
    | none =>
        let r := run_checks net (mkChecker args.timeout args.verbose args.quiet) domains
        { code := r.1, out := r.2.out, probes := r.2.probes,
          resolutions := r.2.resolutions }

/-- Whether the connect to (ip, port) succeeds in this network. -/
def connOk (net : Network) (ip : String) (port : Nat) : Bool :=
  match net.connect ip port with
  | .ok _ => true
  | .error _ => false

/-- The probes check_domain performs for a resolved address list:
addresses in resolution order, ports 80 then 443 for each. -/
def probesOf (net : Network) (ips : List String) : List ProbeRecord :=
  ips.flatMap (fun ip => PORTS.map (fun port => ⟨ip, port, connOk net ip port⟩))

/-- The mark recorded for one port of one address. -/
def portMark (net : Network) (ip : String) (port : Nat) : String :=
  if connOk net ip port then checkMark port else crossMark port

/-- The port_results strings check_domain builds for a resolved list. -/
def portResultsOf (net : Network) (ips : List String) : List String :=
  ips.map (fun ip => ipSummaryStr ip (PORTS.map (portMark net ip)))

/-- Whether some probe over the resolved addresses fails. -/
def anyFailed (net : Network) (ips : List String) : Bool :=
  (probesOf net ips).any (fun p => !p.success)

/-- The verbose per-probe lines for a resolved address list. -/
def vlinesOf (net : Network) (ips : List String) : List OutputLine :=
  ips.flatMap (fun ip => PORTS.map (fun port =>
    match net.connect ip port with
    | .ok _ => .verboseConnected ip port
    | .error e => .verboseFailed ip port e))

/-- Quiet-mode output as the spec describes the amended behaviour: one
result line for exactly the domains that resolved but had at least one
failed port probe; nothing for DNS failures or fully reachable domains,
and no header or summary. -/
def spec_quiet_output (net : Network) (ds : List String) : List OutputLine :=
  ds.filterMap (fun d =>
    match net.resolve d with
    | .error _ => none
    | .ok ips =>
        if anyFailed net ips then
          some (.result true d (portResultsOf net ips))
        else none)

/-- A network in which every domain resolves to one address and every
connect succeeds. -/
def netAllOk : Network :=
  ⟨fun _ => .ok ["1.2.3.4"], fun _ _ => .ok ()⟩

/-- A network in which no domain resolves. -/
def netNoDns : Network :=
  ⟨fun _ => .error "name or service not known", fun _ _ => .ok ()⟩

/-- A network in which every domain resolves to two addresses, the first
fully open, the second with port 443 closed. -/
def netMixed : Network :=
  ⟨fun _ => .ok ["10.0.0.1", "10.0.0.2"],
   fun ip port =>
     if ip = "10.0.0.1" then .ok ()
     else if port = 80 then .ok () else .error "connection refused"⟩

/-- A network in which every domain resolves to an empty address list. -/
def netEmptyRes : Network :=
  ⟨fun _ => .ok [], fun _ _ => .ok ()⟩

/-- Closed form of the nested probing loops of check_domain. -/
theorem ip_loop_spec (net : Network) (c : Checker) (ips : List String)
    (s : IpLoop) :
    ips.foldl (probe_ip net c) s =
      { port_results := s.port_results ++ portResultsOf net ips,
        hasFailed := s.hasFailed || anyFailed net ips,
        out := s.out ++ (if c.verbose then vlinesOf net ips else []),
        probes := s.probes ++ probesOf net ips } := by
  induction ips generalizing s with
  | nil =>
      simp [portResultsOf, anyFailed, probesOf, vlinesOf]
  | cons ip rest ih =>
      rw [List.foldl_cons, ih]
      cases h80 : net.connect ip 80 <;> cases h443 : net.connect ip 443 <;>
        cases hv : c.verbose <;>
        simp [probe_ip, probe_port, PORTS, portResultsOf, anyFailed, probesOf,
          vlinesOf, connOk, portMark, h80, h443, hv, Bool.or_assoc,
          IpLoop.mk.injEq]

/-- check_domain on a domain whose resolution fails. -/
theorem check_domain_err (net : Network) (c : Checker) (d e : String)
    (h : net.resolve d = .error e) :
    check_domain net c d =
      { ret := false,
        checker := { c with total_domains := c.total_domains + 1,
                            failed_domains := c.failed_domains + 1,
                            dns_failures := c.dns_failures + 1 },
        out := if c.quiet then [] else [.dnsFail d e],
        probes := [], resolutions := [d] } := by
  unfold check_domain
  rw [h]

/-- check_domain on a domain whose resolution succeeds. -/
theorem check_domain_ok (net : Network) (c : Checker) (d : String)
    (ips : List String) (h : net.resolve d = .ok ips) :
    check_domain net c d =
      { ret := !anyFailed net ips,
        checker := { c with total_domains := c.total_domains + 1,
                            failed_domains := c.failed_domains
                              + (if anyFailed net ips then 1 else 0) },
        out := (if c.verbose then vlinesOf net ips else [])
          ++ (if c.quiet
              then (if anyFailed net ips
                    then [OutputLine.result true d (portResultsOf net ips)]
                    else [])
              else [OutputLine.result (anyFailed net ips) d
                      (portResultsOf net ips)]),
        probes := probesOf net ips,
        resolutions := [d] } := by
  unfold check_domain
  rw [h]
  simp only [ip_loop_spec net _ ips]
  cases hf : anyFailed net ips <;> simp

/-- check_domain increments total_domains by one on every path. -/
theorem check_domain_total (net : Network) (c : Checker) (d : String) :
    (check_domain net c d).checker.total_domains = c.total_domains + 1 := by
  cases hr : net.resolve d with
  | error e => rw [check_domain_err net c d e hr]
  | ok ips => rw [check_domain_ok net c d ips hr]

/-- check_domain leaves the quiet flag unchanged. -/
theorem check_domain_quiet (net : Network) (c : Checker) (d : String) :
    (check_domain net c d).checker.quiet = c.quiet := by
  cases hr : net.resolve d with
  | error e => rw [check_domain_err net c d e hr]
  | ok ips => rw [check_domain_ok net c d ips hr]

/-- check_domain leaves the verbose flag unchanged. -/
theorem check_domain_verbose (net : Network) (c : Checker) (d : String) :
    (check_domain net c d).checker.verbose = c.verbose := by
  cases hr : net.resolve d with
  | error e => rw [check_domain_err net c d e hr]
  | ok ips => rw [check_domain_ok net c d ips hr]

/-- check_domain attempts DNS resolution exactly once, on its domain. -/
theorem check_domain_resolutions (net : Network) (c : Checker) (d : String) :
    (check_domain net c d).resolutions = [d] := by
  cases hr : net.resolve d with
  | error e => rw [check_domain_err net c d e hr]
  | ok ips => rw [check_domain_ok net c d ips hr]

/-- check_domain returns true exactly when it leaves failed_domains
unchanged, and it increments failed_domains by at most one. -/
theorem check_domain_failed_ret (net : Network) (c : Checker) (d : String) :
    (check_domain net c d).checker.failed_domains
      + (if (check_domain net c d).ret then 1 else 0)
      = c.failed_domains + 1 := by
  cases hr : net.resolve d with
  | error e => rw [check_domain_err net c d e hr]; simp
  | ok ips =>
      rw [check_domain_ok net c d ips hr]
      cases hf : anyFailed net ips <;> simp

/-- When check_domain returns true it left failed_domains unchanged. -/
theorem check_domain_failed_of_ret_true (net : Network) (c : Checker)
    (d : String) (h : (check_domain net c d).ret = true) :
    (check_domain net c d).checker.failed_domains = c.failed_domains := by
  cases hr : net.resolve d with
  | error e =>
      rw [check_domain_err net c d e hr] at h
      simp at h
  | ok ips =>
      rw [check_domain_ok net c d ips hr] at h
      rw [check_domain_ok net c d ips hr]
      cases hf : anyFailed net ips
      · simp [hf]
      · rw [hf] at h
        simp at h

/-- When check_domain returns false it incremented failed_domains by one. -/
theorem check_domain_failed_of_ret_false (net : Network) (c : Checker)
    (d : String) (h : (check_domain net c d).ret = false) :
    (check_domain net c d).checker.failed_domains = c.failed_domains + 1 := by
  cases hr : net.resolve d with
  | error e => rw [check_domain_err net c d e hr]
  | ok ips =>
      rw [check_domain_ok net c d ips hr] at h
      rw [check_domain_ok net c d ips hr]
      cases hf : anyFailed net ips
      · rw [hf] at h
        simp at h
      · simp [hf]

/-- check_domain never decrements dns_failures, and increments it only
together with failed_domains: the counter ordering is preserved. -/
theorem check_domain_inv (net : Network) (c : Checker) (d : String)
    (h1 : c.dns_failures ≤ c.failed_domains)
    (h2 : c.failed_domains ≤ c.total_domains) :
    (check_domain net c d).checker.dns_failures
        ≤ (check_domain net c d).checker.failed_domains
    ∧ (check_domain net c d).checker.failed_domains
        ≤ (check_domain net c d).checker.total_domains := by
  cases hr : net.resolve d with
  | error e => rw [check_domain_err net c d e hr]; constructor <;> simp <;> omega
  | ok ips =>
      rw [check_domain_ok net c d ips hr]
      cases hf : anyFailed net ips <;> constructor <;> simp <;> omega

/-- The run loop adds the number of processed domains to total_domains. -/
theorem run_fold_total (net : Network) (ds : List String) (s : RunState) :
    (ds.foldl (run_step net) s).checker.total_domains
      = s.checker.total_domains + ds.length := by
  induction ds generalizing s with
  | nil => simp
  | cons d rest ih =>
      rw [List.foldl_cons, ih]
      simp [run_step, check_domain_total]
      omega

/-- The run loop preserves the sum of successes and failures plus the
number of remaining domains. -/
theorem run_fold_counts (net : Network) (ds : List String) (s : RunState) :
    (ds.foldl (run_step net) s).success_count
      + (ds.foldl (run_step net) s).checker.failed_domains
      = s.success_count + s.checker.failed_domains + ds.length := by
  induction ds generalizing s with
  | nil => simp
  | cons d rest ih =>
      rw [List.foldl_cons, ih]
      have h := check_domain_failed_ret net s.checker d
      simp only [run_step, List.length_cons]
      omega

/-- The run loop resolves exactly the processed domains, in order. -/
theorem run_fold_resolutions (net : Network) (ds : List String) (s : RunState) :
    (ds.foldl (run_step net) s).resolutions = s.resolutions ++ ds := by
  induction ds generalizing s with
  | nil => simp
  | cons d rest ih =>
      rw [List.foldl_cons, ih]
      simp [run_step, check_domain_resolutions]

/-- The run loop preserves the quiet flag. -/
theorem run_fold_quiet (net : Network) (ds : List String) (s : RunState) :
    (ds.foldl (run_step net) s).checker.quiet = s.checker.quiet := by
  induction ds generalizing s with
  | nil => simp
  | cons d rest ih =>
      rw [List.foldl_cons, ih]
      simp [run_step, check_domain_quiet]

/-- The run loop preserves the verbose flag. -/
theorem run_fold_verbose (net : Network) (ds : List String) (s : RunState) :
    (ds.foldl (run_step net) s).checker.verbose = s.checker.verbose := by
  induction ds generalizing s with
  | nil => simp
  | cons d rest ih =>
      rw [List.foldl_cons, ih]
      simp [run_step, check_domain_verbose]

/-- The run loop preserves the counter ordering invariant. -/
theorem run_fold_inv (net : Network) (ds : List String) (s : RunState)
    (h1 : s.checker.dns_failures ≤ s.checker.failed_domains)
    (h2 : s.checker.failed_domains ≤ s.checker.total_domains) :
    (ds.foldl (run_step net) s).checker.dns_failures
        ≤ (ds.foldl (run_step net) s).checker.failed_domains
    ∧ (ds.foldl (run_step net) s).checker.failed_domains
        ≤ (ds.foldl (run_step net) s).checker.total_domains := by
  induction ds generalizing s with
  | nil => exact ⟨h1, h2⟩
  | cons d rest ih =>
      rw [List.foldl_cons]
      have h := check_domain_inv net s.checker d h1 h2
      exact ih _ h.1 h.2

/-- In quiet non-verbose mode the run loop prints exactly the result lines
of the domains with a failed port probe. -/
theorem run_fold_out_quiet (net : Network) (ds : List String) (s : RunState)
    (hq : s.checker.quiet = true) (hv : s.checker.verbose = false) :
    (ds.foldl (run_step net) s).out = s.out ++ spec_quiet_output net ds := by
  induction ds generalizing s hq hv with
  | nil => simp [spec_quiet_output]
  | cons d rest ih =>
      have hq2 : (run_step net s d).checker.quiet = true := by
        simp [run_step, check_domain_quiet, hq]
      have hv2 : (run_step net s d).checker.verbose = false := by
        simp [run_step, check_domain_verbose, hv]
      rw [List.foldl_cons, ih _ hq2 hv2]
      cases hr : net.resolve d with
      | error e =>
          simp [run_step, check_domain_err net s.checker d e hr, hq,
            spec_quiet_output, List.filterMap_cons, hr]
      | ok ips =>
          cases hf : anyFailed net ips <;>
            simp [run_step, check_domain_ok net s.checker d ips hr, hq, hv, hf,
              spec_quiet_output, List.filterMap_cons, hr]

/-- run_checks in quiet non-verbose mode prints exactly the quiet-mode
output the spec describes. -/
theorem run_checks_out_quiet (net : Network) (c : Checker) (ds : List String)
    (hq : c.quiet = true) (hv : c.verbose = false) :
    (run_checks net c ds).2.out = spec_quiet_output net ds := by
  have hq2 : (ds.foldl (run_step net) (initRun c)).checker.quiet = true := by
    rw [run_fold_quiet]; exact hq
  have hout := run_fold_out_quiet net ds (initRun c) hq hv
  simp only [run_checks, hq2, if_true, List.append_nil]
  rw [hout]
  simp [initRun, hq]

/-- Claim C1 (amended): over any nonempty domain list, the exit code of
run_checks is 2 when all domains failed DNS resolution, otherwise 1 when
some domain had failures, otherwise 0.  (Over the empty list the source
returns 2, not 0, since 0 == 0.) -/
theorem claim_C1_exit_code_law (net : Network) (t : Int) (v q : Bool)
    (ds : List String) (hne : ds ≠ []) :
    run_exit net (mkChecker t v q) ds =
      (if (run_final net (mkChecker t v q) ds).dns_failures
            = (run_final net (mkChecker t v q) ds).total_domains
          ∧ 0 < (run_final net (mkChecker t v q) ds).total_domains
       then 2
       else if 0 < (run_final net (mkChecker t v q) ds).failed_domains
       then 1 else 0) := by
  have hfc : run_final net (mkChecker t v q) ds
      = (ds.foldl (run_step net) (initRun (mkChecker t v q))).checker := rfl
  have hex : run_exit net (mkChecker t v q) ds
      = (if (ds.foldl (run_step net) (initRun (mkChecker t v q))).checker.dns_failures
            = (ds.foldl (run_step net) (initRun (mkChecker t v q))).checker.total_domains
         then 2
         else if 0 < (ds.foldl (run_step net) (initRun (mkChecker t v q))).checker.failed_domains
         then 1 else 0) := rfl
  have htot : (ds.foldl (run_step net) (initRun (mkChecker t v q))).checker.total_domains
      = ds.length := by
    rw [run_fold_total]; simp [initRun, mkChecker]
  have hpos : 0 < (ds.foldl (run_step net) (initRun (mkChecker t v q))).checker.total_domains := by
    rw [htot]; exact List.length_pos.mpr hne
  rw [hex, hfc]
  simp only [and_iff_left hpos]

/-- Claim C1 counterexample: on the empty domain list run_checks returns
exit code 2 although totalDomains = 0 and domainsWithFailures = 0, where
the claimed law demands exit code 0. -/
theorem claim_C1_counterexample :
    run_exit netAllOk (mkChecker 3 false false) [] = 2
  ∧ (run_final netAllOk (mkChecker 3 false false) []).total_domains = 0
  ∧ (run_final netAllOk (mkChecker 3 false false) []).failed_domains = 0 :=
  ⟨rfl, rfl, rfl⟩

/-- Claim C1 witness: the amended law evaluated on a concrete one-domain
run in which everything succeeds. -/
theorem claim_C1_witness :
    (["contoso.com"] ≠ ([] : List String))
  ∧ run_exit netAllOk (mkChecker 3 false false) ["contoso.com"] =
      (if (run_final netAllOk (mkChecker 3 false false) ["contoso.com"]).dns_failures
            = (run_final netAllOk (mkChecker 3 false false) ["contoso.com"]).total_domains
          ∧ 0 < (run_final netAllOk (mkChecker 3 false false) ["contoso.com"]).total_domains
       then 2
       else if 0 < (run_final netAllOk (mkChecker 3 false false) ["contoso.com"]).failed_domains
       then 1 else 0) :=
  ⟨by decide, claim_C1_exit_code_law netAllOk 3 false false ["contoso.com"] (by decide)⟩

/-- Claim C2: when DNS resolution of a domain fails, check_domain
increments dnsFailures and failedDomains by exactly one, attempts no port
probe, returns false, and a run containing that domain still resolves every
domain of the list. -/
theorem claim_C2_dns_failure (net : Network) (c : Checker) (d e : String)
    (h : net.resolve d = .error e) :
    (check_domain net c d).checker.dns_failures = c.dns_failures + 1
  ∧ (check_domain net c d).checker.failed_domains = c.failed_domains + 1
  ∧ (check_domain net c d).probes = []
  ∧ (check_domain net c d).ret = false
  ∧ (∀ (t : Int) (v q : Bool) (rest : List String),
      (run_checks net (mkChecker t v q) (d :: rest)).2.resolutions = d :: rest) := by
  refine ⟨?_, ?_, ?_, ?_, ?_⟩
  · rw [check_domain_err net c d e h]
  · rw [check_domain_err net c d e h]
  · rw [check_domain_err net c d e h]
  · rw [check_domain_err net c d e h]
  · intro t v q rest
    have hres : (run_checks net (mkChecker t v q) (d :: rest)).2.resolutions
        = ((d :: rest).foldl (run_step net) (initRun (mkChecker t v q))).resolutions := rfl
    rw [hres, run_fold_resolutions]
    simp [initRun, mkChecker]

/-- Claim C2 witness: the DNS-failure behaviour evaluated on a concrete
network in which no domain resolves. -/
theorem claim_C2_witness :
    netNoDns.resolve "nodns.example" = .error "name or service not known"
  ∧ ((check_domain netNoDns (mkChecker 3 false false) "nodns.example").checker.dns_failures
        = (mkChecker 3 false false).dns_failures + 1
    ∧ (check_domain netNoDns (mkChecker 3 false false) "nodns.example").checker.failed_domains
        = (mkChecker 3 false false).failed_domains + 1
    ∧ (check_domain netNoDns (mkChecker 3 false false) "nodns.example").probes = []
    ∧ (check_domain netNoDns (mkChecker 3 false false) "nodns.example").ret = false
    ∧ (∀ (t : Int) (v q : Bool) (rest : List String),
        (run_checks netNoDns (mkChecker t v q) ("nodns.example" :: rest)).2.resolutions
          = "nodns.example" :: rest)) :=
  ⟨rfl, claim_C2_dns_failure netNoDns (mkChecker 3 false false) "nodns.example"
    "name or service not known" rfl⟩

/-- Claim C3: when DNS resolution succeeds, check_domain returns true iff
every probe over all (address, port) pairs succeeded; when some probe
fails, failedDomains grows by exactly one (never more), and dnsFailures is
unchanged. -/
theorem claim_C3_resolved_classification (net : Network) (c : Checker)
    (d : String) (ips : List String) (h : net.resolve d = .ok ips) :
    ((check_domain net c d).ret = true ↔ ∀ p ∈ probesOf net ips, p.success = true)
  ∧ (check_domain net c d).checker.failed_domains
      = c.failed_domains + (if anyFailed net ips then 1 else 0)
  ∧ (check_domain net c d).checker.dns_failures = c.dns_failures
  ∧ (anyFailed net ips = true →
      (check_domain net c d).checker.failed_domains = c.failed_domains + 1) := by
  rw [check_domain_ok net c d ips h]
  refine ⟨?_, rfl, rfl, ?_⟩
  · simp [anyFailed, List.any_eq_false]
  · intro ha
    simp [ha]

/-- Claim C3 witness: a domain resolving to one fully open address and one
address with port 443 closed is classified not fully reachable, and
failedDomains grows by exactly one. -/
theorem claim_C3_witness :
    netMixed.resolve "contoso.com" = .ok ["10.0.0.1", "10.0.0.2"]
  ∧ (((check_domain netMixed (mkChecker 3 false false) "contoso.com").ret = true
        ↔ ∀ p ∈ probesOf netMixed ["10.0.0.1", "10.0.0.2"], p.success = true)
    ∧ (check_domain netMixed (mkChecker 3 false false) "contoso.com").checker.failed_domains
        = (mkChecker 3 false false).failed_domains
          + (if anyFailed netMixed ["10.0.0.1", "10.0.0.2"] then 1 else 0)
    ∧ (check_domain netMixed (mkChecker 3 false false) "contoso.com").checker.dns_failures
        = (mkChecker 3 false false).dns_failures
    ∧ (anyFailed netMixed ["10.0.0.1", "10.0.0.2"] = true →
        (check_domain netMixed (mkChecker 3 false false) "contoso.com").checker.failed_domains
          = (mkChecker 3 false false).failed_domains + 1)) :=
  ⟨rfl, claim_C3_resolved_classification netMixed (mkChecker 3 false false)
    "contoso.com" ["10.0.0.1", "10.0.0.2"] rfl⟩

/-- Claim C4: for a resolving domain the probes attempted are exactly one
per (address, port) pair, addresses in resolution order, ports 80 then
443, and every pair is probed regardless of earlier failures. -/
theorem claim_C4_probe_enumeration (net : Network) (c : Checker) (d : String)
    (ips : List String) (h : net.resolve d = .ok ips) :
    (check_domain net c d).probes
      = ips.flatMap (fun ip =>
          [⟨ip, 80, connOk net ip 80⟩, ⟨ip, 443, connOk net ip 443⟩]) := by
  rw [check_domain_ok net c d ips h]
  simp [probesOf, PORTS]

/-- Claim C4 witness: the probe enumeration evaluated on a concrete
two-address network with a failing port. -/
theorem claim_C4_witness :
    netMixed.resolve "example.org" = .ok ["10.0.0.1", "10.0.0.2"]
  ∧ (check_domain netMixed (mkChecker 3 false false) "example.org").probes
      = (["10.0.0.1", "10.0.0.2"] : List String).flatMap (fun ip =>
          [⟨ip, 80, connOk netMixed ip 80⟩, ⟨ip, 443, connOk netMixed ip 443⟩]) :=
  ⟨rfl, claim_C4_probe_enumeration netMixed (mkChecker 3 false false)
    "example.org" ["10.0.0.1", "10.0.0.2"] rfl⟩

/-- Claim C5: initially and after each check_domain call of a run, the
counters satisfy dnsFailures ≤ domainsWithFailures ≤ totalDomains. -/
theorem claim_C5_counter_invariant (net : Network) (t : Int) (v q : Bool)
    (ds : List String) (k : Nat) :
    ((ds.take k).foldl (run_step net) (initRun (mkChecker t v q))).checker.dns_failures
        ≤ ((ds.take k).foldl (run_step net) (initRun (mkChecker t v q))).checker.failed_domains
    ∧ ((ds.take k).foldl (run_step net) (initRun (mkChecker t v q))).checker.failed_domains
        ≤ ((ds.take k).foldl (run_step net) (initRun (mkChecker t v q))).checker.total_domains :=
  run_fold_inv net (ds.take k) (initRun (mkChecker t v q)) le_rfl le_rfl

/-- Claim C6: with timeout ≤ 0 or with verbose and quiet both set, main
exits with code 2 and an error message, and attempts no DNS resolution and
no TCP connection. -/
theorem claim_C6_config_error (net : Network) (args : Args)
    (exc : Option (RunExc × RunState))
    (h : args.timeout ≤ 0 ∨ (args.verbose = true ∧ args.quiet = true)) :
    (main_run net args exc).code = 2
  ∧ (main_run net args exc).resolutions = []
  ∧ (main_run net args exc).probes = []
  ∧ ((main_run net args exc).out = [OutputLine.errTimeout]
      ∨ (main_run net args exc).out = [OutputLine.errConflict]) := by
  unfold main_run
  by_cases ht : args.timeout ≤ 0
  · simp [ht]
  · rcases h with h | ⟨hv, hq⟩
    · exact absurd h ht
    · simp [ht, hv, hq]

/-- Claim C6 witness: the fast-fail behaviour evaluated at timeout 0. -/
theorem claim_C6_witness :
    ((0 : Int) ≤ 0 ∨ (false = true ∧ false = true))
  ∧ ((main_run netAllOk ⟨none, 0, false, false⟩ none).code = 2
    ∧ (main_run netAllOk ⟨none, 0, false, false⟩ none).resolutions = []
    ∧ (main_run netAllOk ⟨none, 0, false, false⟩ none).probes = []
    ∧ ((main_run netAllOk ⟨none, 0, false, false⟩ none).out = [OutputLine.errTimeout]
        ∨ (main_run netAllOk ⟨none, 0, false, false⟩ none).out = [OutputLine.errConflict])) :=
  ⟨Or.inl (by decide),
    claim_C6_config_error netAllOk ⟨none, 0, false, false⟩ none (Or.inl (by decide))⟩

/-- Claim C7: with valid arguments, a KeyboardInterrupt escaping the run
yields exit code 1 and any other exception yields exit code 2. -/
theorem claim_C7_interrupt_handling (net : Network) (args : Args)
    (s : RunState) (m : String)
    (h1 : ¬ args.timeout ≤ 0)
    (h2 : ¬ (args.verbose = true ∧ args.quiet = true)) :
    (main_run net args (some (.keyboardInterrupt, s))).code = 1
  ∧ (main_run net args (some (.other m, s))).code = 2 := by
  have hb : (args.verbose && args.quiet) = false := by
    cases hv : args.verbose <;> cases hq : args.quiet <;> simp_all
  unfold main_run
  simp [h1, hb]

/-- Claim C7 witness: the interrupt and unexpected-error paths evaluated
with concrete valid arguments. -/
theorem claim_C7_witness :
    ¬ ((3 : Int) ≤ 0)
  ∧ ¬ (false = true ∧ false = true)
  ∧ ((main_run netAllOk ⟨none, 3, false, false⟩
        (some (.keyboardInterrupt, initRun (mkChecker 3 false false)))).code = 1
    ∧ (main_run netAllOk ⟨none, 3, false, false⟩
        (some (.other "boom", initRun (mkChecker 3 false false)))).code = 2) :=
  ⟨by decide, by decide,
    claim_C7_interrupt_handling netAllOk ⟨none, 3, false, false⟩
      (initRun (mkChecker 3 false false)) "boom" (by decide) (by decide)⟩

/-- Claim C8 counterexample: in quiet mode a domain whose DNS resolution
fails is a domain with a failure, yet the run prints no line at all for it
— the per-domain DNS-failure line is suppressed by quiet mode. -/
theorem claim_C8_counterexample :
    (run_checks netNoDns (mkChecker 3 false true) ["nodns.example"]).2.checker.failed_domains = 1
  ∧ (run_checks netNoDns (mkChecker 3 false true) ["nodns.example"]).2.checker.dns_failures = 1
  ∧ (run_checks netNoDns (mkChecker 3 false true) ["nodns.example"]).2.out = [] :=
  ⟨rfl, rfl, rfl⟩

/-- Claim C8 (amended): in quiet mode the run prints exactly one result
line per domain that resolved but had at least one failed port probe;
domains that fail DNS resolution print nothing, fully reachable domains
print nothing, and the header and trailing summary are suppressed. -/
theorem claim_C8_quiet_output (net : Network) (t : Int) (ds : List String) :
    (run_checks net (mkChecker t false true) ds).2.out = spec_quiet_output net ds :=
  run_checks_out_quiet net (mkChecker t false true) ds rfl rfl

/-- Claim C9: when DNS resolution succeeds with an empty address list,
check_domain performs no probe, increments only totalDomains, and returns
true (the domain counts as fully reachable). -/
theorem claim_C9_empty_resolution (net : Network) (c : Checker) (d : String)
    (h : net.resolve d = .ok []) :
    (check_domain net c d).probes = []
  ∧ (check_domain net c d).checker.total_domains = c.total_domains + 1
  ∧ (check_domain net c d).checker.dns_failures = c.dns_failures
  ∧ (check_domain net c d).checker.failed_domains = c.failed_domains
  ∧ (check_domain net c d).ret = true := by
  have ha : anyFailed net ([] : List String) = false := rfl
  rw [check_domain_ok net c d [] h]
  simp [ha, probesOf]

/-- Claim C9 witness: the empty-resolution behaviour evaluated on a
network resolving every domain to no address. -/
theorem claim_C9_witness :
    netEmptyRes.resolve "contoso.com" = .ok []
  ∧ ((check_domain netEmptyRes (mkChecker 3 false false) "contoso.com").probes = []
    ∧ (check_domain netEmptyRes (mkChecker 3 false false) "contoso.com").checker.total_domains
        = (mkChecker 3 false false).total_domains + 1
    ∧ (check_domain netEmptyRes (mkChecker 3 false false) "contoso.com").checker.dns_failures
        = (mkChecker 3 false false).dns_failures
    ∧ (check_domain netEmptyRes (mkChecker 3 false false) "contoso.com").checker.failed_domains
        = (mkChecker 3 false false).failed_domains
    ∧ (check_domain netEmptyRes (mkChecker 3 false false) "contoso.com").ret = true) :=
  ⟨rfl, claim_C9_empty_resolution netEmptyRes (mkChecker 3 false false) "contoso.com" rfl⟩

/-- Claim C10: check_domain returns true exactly when it left
failedDomains unchanged; after any run the success count equals
totalDomains minus failedDomains, and totalDomains equals the length of
the input list. -/
theorem claim_C10_success_accounting (net : Network) (t : Int) (v q : Bool)
    (ds : List String) :
    (run_checks net (mkChecker t v q) ds).2.success_count
      = (run_checks net (mkChecker t v q) ds).2.checker.total_domains
        - (run_checks net (mkChecker t v q) ds).2.checker.failed_domains
  ∧ (run_checks net (mkChecker t v q) ds).2.checker.total_domains = ds.length
  ∧ (∀ (c : Checker) (d : String),
      ((check_domain net c d).ret = true
        ↔ (check_domain net c d).checker.failed_domains = c.failed_domains)) := by
  have htot : (run_checks net (mkChecker t v q) ds).2.checker.total_domains = ds.length := by
    show (ds.foldl (run_step net) (initRun (mkChecker t v q))).checker.total_domains = ds.length
    rw [run_fold_total]; simp [initRun, mkChecker]
  have hcnt := run_fold_counts net ds (initRun (mkChecker t v q))
  have h0s : (initRun (mkChecker t v q)).success_count = 0 := rfl
  have h0f : (initRun (mkChecker t v q)).checker.failed_domains = 0 := rfl
  rw [h0s, h0f] at hcnt
  refine ⟨?_, htot, ?_⟩
  · show (ds.foldl (run_step net) (initRun (mkChecker t v q))).success_count
        = (ds.foldl (run_step net) (initRun (mkChecker t v q))).checker.total_domains
          - (ds.foldl (run_step net) (initRun (mkChecker t v q))).checker.failed_domains
    have htot2 : (ds.foldl (run_step net) (initRun (mkChecker t v q))).checker.total_domains
        = ds.length := htot
    omega
  · intro c d
    constructor
    · intro hret
      exact check_domain_failed_of_ret_true net c d hret
    · intro heq
      by_contra hne
      have hret : (check_domain net c d).ret = false := by
        cases hb : (check_domain net c d).ret
        · rfl
        · exact absurd hb hne
      have hfd := check_domain_failed_of_ret_false net c d hret
      omega

end MSConnCheck
